import Mathlib

/-!
The go-reddit client: request construction of the Post Manager and the Listing Fetcher.

A shallow embedding of `post.go` and `listings.go`.

* Go strings are Lean `String`s (valid Unicode text; Go orders and escapes strings
  bytewise over UTF-8, which agrees with code point order on such text).
* `url.Values` (a Go `map[string][]string`) is an association list with pairwise
  distinct keys; the order of its entries carries no meaning, and `Encode` sorts the
  keys as Go does.
* The shared client (`NewPostForm`, `NewRequest`, `Do`) and `addOptions` are
  collaborators outside these two files: they are taken as parameters, and every
  operation records the collaborator calls it makes, with what each call returned.
-/

set_option autoImplicit false

/-! ## Go standard library: `strings.Join` -/

namespace strings

/-- The loop of `strings.Join` after the first element: each further element is
written behind the separator. -/
def joinRest (sep : String) : String → List String → String
  | b, [] => b
  | b, s :: rest => joinRest sep (b ++ sep ++ s) rest

/-- Go `strings.Join(elems, sep)`: empty for no element, the element itself for one,
otherwise the first element followed by separator and element for each other one. -/
def Join (elems : List String) (sep : String) : String :=
  match elems with
  | [] => ""
  | [e] => e
  | e :: rest => joinRest sep e rest

end strings

/-! ## Go standard library: `net/url` -/

namespace url

/-- Bytes of the UTF-8 encoding of the code point `n`. -/
def utf8Bytes (n : Nat) : List Nat :=
  if n < 0x80 then [n]
  else if n < 0x800 then [0xC0 + n / 64, 0x80 + n % 64]
  else if n < 0x10000 then [0xE0 + n / 4096, 0x80 + n / 64 % 64, 0x80 + n % 64]
  else [0xF0 + n / 262144, 0x80 + n / 4096 % 64, 0x80 + n / 64 % 64, 0x80 + n % 64]

/-- Digit `d` (below 16) of the table `upperhex = "0123456789ABCDEF"`. -/
def upperhex (d : Nat) : Char :=
  if d < 10 then Char.ofNat (48 + d) else Char.ofNat (55 + d)

/-- Go `shouldEscape(c, encodeQueryComponent)`: letters, digits and `-_.~` are kept,
every other byte is escaped. -/
def shouldEscape (c : Nat) : Bool :=
  !((97 ≤ c && c ≤ 122) || (65 ≤ c && c ≤ 90) || (48 ≤ c && c ≤ 57)
    || c == 45 || c == 95 || c == 46 || c == 126)

/-- One byte as `QueryEscape` writes it: a space becomes `+`, an escaped byte
becomes `%XX`. -/
def escapeByte (c : Nat) : List Char :=
  if shouldEscape c then
    if c == 32 then ['+'] else ['%', upperhex (c / 16), upperhex (c % 16)]
  else [Char.ofNat c]

/-- The bytes of a Go string: the UTF-8 encoding of its text. -/
def bytes (s : String) : List Nat :=
  s.data.flatMap (fun ch => utf8Bytes ch.toNat)

/-- Go `url.QueryEscape`. -/
def QueryEscape (s : String) : String :=
  String.mk ((bytes s).flatMap escapeByte)

/-- Bytewise lexicographic order, the order of Go's `<` on strings. -/
def lessBytes : List Nat → List Nat → Bool
  | _, [] => false
  | [], _ :: _ => true
  | a :: as, b :: bs => a < b || (a == b && lessBytes as bs)

/-- Go `a < b` on strings. -/
def less (a b : String) : Bool := lessBytes (bytes a) (bytes b)

/-- Go `url.Values`, a `map[string][]string`. -/
def Values : Type := List (String × List String)

instance : DecidableEq Values := inferInstanceAs (DecidableEq (List (String × List String)))

namespace Values

/-- The composite literal with no entries. -/
def empty : Values := ([] : List (String × List String))

/-- The entries of the map as a list of key and values. -/
def entries (v : Values) : List (String × List String) := v

/-- Map lookup `v[key]`; `none` when the key is absent. -/
def lookup (v : Values) (key : String) : Option (List String) :=
  match v with
  | [] => none
  | (k, vs) :: rest => if k = key then some vs else lookup rest key

/-- The keys of the map. -/
def keys (v : Values) : List String := v.entries.map Prod.fst

/-- Map assignment `v[key] = vs`. -/
def assign (v : Values) (key : String) (vs : List String) : Values :=
  match v with
  | [] => [(key, vs)]
  | (k, old) :: rest => if k = key then (k, vs) :: rest else (k, old) :: assign rest key vs

/-- Go `Values.Set`: `v[key] = []string{value}`, replacing any existing values. -/
def Set (v : Values) (key value : String) : Values :=
  v.assign key [value]

/-- Go `Values.Add`: `v[key] = append(v[key], value)`. -/
def Add (v : Values) (key value : String) : Values :=
  v.assign key ((v.lookup key).getD [] ++ [value])

/-- Go `Values.Get`: the first value of the key, or the empty string. -/
def Get (v : Values) (key : String) : String :=
  match v.lookup key with
  | some (x :: _) => x
  | _ => ""

/-- Insertion of a key into a sorted list of keys. -/
def insertKey (k : String) : List String → List String
  | [] => [k]
  | x :: xs => if less k x then k :: x :: xs else x :: insertKey k xs

/-- The keys in ascending order (`slices.Sort(keys)`). -/
def sortedKeys (v : Values) : List String :=
  v.keys.foldr insertKey []

/-- The `key=value` pairs that `Encode` writes, in the order it writes them: keys
ascending, and for each key its values in order. -/
def encodedPairs (v : Values) : List String :=
  (sortedKeys v).flatMap (fun k =>
    ((v.lookup k).getD []).map (fun x => QueryEscape k ++ "=" ++ QueryEscape x))

/-- Go `Values.Encode`: the URL-encoded form, sorted by key, pairs separated by
`&`. -/
def Encode (v : Values) : String :=
  "&".intercalate (encodedPairs v)

/-- The map with one value per key that holds the given pairs. -/
def ofPairs (pairs : List (String × String)) : Values :=
  pairs.map (fun p => (p.1, [p.2]))

/-- Two forms are the same map: every key has the same values in both. -/
def SameMap (a b : Values) : Prop :=
  ∀ k, a.lookup k = b.lookup k

end Values

end url

/-! ## Go `error` values -/

/-- An error value made outside this package: by the client, the transport or a
library. -/
structure ForeignError where
  text : String
  deriving DecidableEq

/-- A Go `error` as an operation of this package returns it: a value this package
made itself with `errors.New`, or a value made outside that it hands on. A value
made by `errors.New` is a fresh object, so it is never a value that a collaborator
returned. -/
inductive GoError where
  | errorsNew (text : String)
  | foreign (e : ForeignError)
  deriving DecidableEq

/-! ## JSON documents and `encoding/json` decoding -/

/-- A JSON document, as `encoding/json` reads it from a response body. -/
inductive Json where
  | null
  | bool (b : Bool)
  | number (text : String)
  | string (s : String)
  | array (elems : List Json)
  | object (members : List (String × Json))

namespace json

/-- Case folding of one character as `encoding/json` matches object keys with field
names: ASCII upper case, the long s (U+017F) and the Kelvin sign (U+212A) fold to
the ASCII lower case letter. -/
def foldChar (c : Char) : Char :=
  if 65 ≤ c.toNat ∧ c.toNat ≤ 90 then Char.ofNat (c.toNat + 32)
  else if c.toNat = 0x17F then 's'
  else if c.toNat = 0x212A then 'k'
  else c

/-- An object key selects the field tagged `name` (an ASCII lower case tag) when
both are equal up to case folding. -/
def keyMatches (name key : String) : Bool :=
  key.data.map foldChar = name.data

/-- The value that decoding leaves for the field tagged `name`: members are read in
order, so the last matching one decides. -/
def field (name : String) (members : List (String × Json)) : Option Json :=
  members.foldl (fun found kv => if keyMatches name kv.1 then some kv.2 else found) none

/-- The value of `key` in a generic record (`map[string]interface`): the key is
matched exactly and the last occurrence decides. -/
def entry (key : String) (members : List (String × Json)) : Option Json :=
  members.foldl (fun found kv => if kv.1 = key then some kv.2 else found) none

end json

/-! ## The library `github.com/google/go-querystring/query` -/

namespace query

/-- The value of a struct field, for the field types used in this package. -/
inductive FieldValue where
  | string (s : String)
  | bool (b : Bool)
  | ptrBool (p : Option Bool)

/-- A struct field with its `url` tag: the name and whether `omitempty` is set. -/
structure Field where
  name : String
  omitempty : Bool
  value : FieldValue

/-- The `interface` value handed to `Values`: a struct (or pointer to one) with its
tagged fields and its embedded structs, or a value of another kind. -/
inductive Value where
  | struct (fields : List Field) (embedded : List (List Field))
  | other (kind : String)

/-- The library function `isEmptyValue`: the empty string, `false` and the nil pointer. -/
def isEmptyValue : FieldValue → Bool
  | .string s => s.length == 0
  | .bool b => !b
  | .ptrBool p => p.isNone

/-- The library function `valueString` without the `int` option: pointers are
dereferenced, booleans print as `true` and `false`. -/
def valueString : FieldValue → String
  | .string s => s
  | .bool b => if b then "true" else "false"
  | .ptrBool none => ""
  | .ptrBool (some b) => if b then "true" else "false"

/-- One iteration of the field loop of `reflectValue`. -/
def addField (values : url.Values) (f : Field) : url.Values :=
  if f.omitempty && isEmptyValue f.value then values
  else values.Add f.name (valueString f.value)

/-- The library function `reflectValue`: the tagged fields in declaration order,
then the embedded structs, which it keeps for the end. -/
def reflectValue (values : url.Values) (fields : List Field)
    (embedded : List (List Field)) : url.Values :=
  embedded.foldl (fun vs fs => fs.foldl addField vs) (fields.foldl addField values)

/-- The library function `Values`: the form of a struct, and an error for a value
that is not a struct. -/
def Values (v : Value) : Except ForeignError url.Values :=
  match v with
  | .other kind => .error ⟨"query: Values() expects struct input. Got " ++ kind⟩
  | .struct fields embedded => .ok (reflectValue url.Values.empty fields embedded)

end query

/-! ## The package -/

namespace geddit

/-- An `*http.Request` built by the client. -/
structure Request where
  handle : Nat
  deriving DecidableEq

/-- The `*Response` of the client. -/
structure Response where
  handle : Nat
  deriving DecidableEq

/-- The third argument of `Do`: nothing to decode into, or the root to fill. -/
inductive Target where
  | nil
  | submittedLinkRoot
  | rootListing
  deriving DecidableEq

/-- What `NewPostForm` and `NewRequest` return. -/
structure Built where
  req : Option Request
  err : Option ForeignError

/-- What `Do` returns, with the JSON document it decoded into its target (none when
it decoded nothing). -/
structure DoResult where
  resp : Option Response
  err : Option ForeignError
  body : Option Json

/-- The shared client, a collaborator of this package. -/
structure Client where
  NewPostForm : String → url.Values → Built
  NewRequest : String → String → Built
  Do : Option Request → Target → DoResult

/-- A call to the client, with its arguments and what it returned. -/
inductive Call where
  | NewPostForm (path : String) (form : url.Values) (out : Built)
  | NewRequest (method : String) (path : String) (out : Built)
  | Do (req : Option Request) (v : Target) (out : DoResult)

/-- The error that a call returned. -/
def Call.err : Call → Option ForeignError
  | .NewPostForm _ _ out => out.err
  | .NewRequest _ _ out => out.err
  | .Do _ _ out => out.err

/-- Whether the call is a call of `Do`. -/
def Call.isDo : Call → Bool
  | .Do _ _ _ => true
  | _ => false

/-- The path and form of every `NewPostForm` call of a trace. -/
def posted : List Call → List (String × url.Values)
  | [] => []
  | .NewPostForm path form _ :: rest => (path, form) :: posted rest
  | _ :: rest => posted rest

/-- The path and the encoded form of every `NewPostForm` call of a trace. -/
def postedEncoded (calls : List Call) : List (String × String) :=
  (posted calls).map (fun pf => (pf.1, pf.2.Encode))

/-- The trace builds exactly one form request: to `path`, with the form that holds
exactly the given pairs, one value per key. -/
def PostsForm (calls : List Call) (path : String) (pairs : List (String × String)) : Prop :=
  ∃ form, posted calls = [(path, form)] ∧ form.SameMap (url.Values.ofPairs pairs)

/-- The method and path of every `NewRequest` call of a trace. -/
def requested : List Call → List (String × String)
  | [] => []
  | .NewRequest method path _ :: rest => (method, path) :: requested rest
  | _ :: rest => requested rest

/-- The result `(*Response, error)` of an operation, with the calls it made. -/
structure Ret where
  resp : Option Response
  err : Option GoError
  calls : List Call

/-- The result `(*T, *Response, error)` of an operation, with the calls it made. -/
structure RetV (α : Type) where
  val : Option α
  resp : Option Response
  err : Option GoError
  calls : List Call

/-! ### post.go -/

/-- The struct `Submitted`: a newly submitted post. -/
structure Submitted where
  ID : String
  FullID : String
  URL : String
  deriving DecidableEq

/-- The anonymous struct of the field `JSON` of `submittedLinkRoot`. -/
structure submittedLinkRoot.Envelope where
  Data : Option Submitted
  deriving DecidableEq

/-- The struct `submittedLinkRoot`. -/
structure submittedLinkRoot where
  JSON : submittedLinkRoot.Envelope
  deriving DecidableEq

/-- The zero value `new(submittedLinkRoot)`. -/
def submittedLinkRoot.new : submittedLinkRoot := ⟨⟨none⟩⟩

/-- Decoding of one object member into a `Submitted`, by the `json` tags `id`,
`name` and `url`: a string is stored, anything else leaves the field as it is. -/
def Submitted.setMember (s : Submitted) (kv : String × Json) : Submitted :=
  if json.keyMatches "id" kv.1 then
    match kv.2 with
    | .string x => { s with ID := x }
    | _ => s
  else if json.keyMatches "name" kv.1 then
    match kv.2 with
    | .string x => { s with FullID := x }
    | _ => s
  else if json.keyMatches "url" kv.1 then
    match kv.2 with
    | .string x => { s with URL := x }
    | _ => s
  else s

/-- Decoding of a JSON value into the field `Data *Submitted` (tag `data`): `null`
sets the pointer to nil, an object fills the struct (a new one if the pointer is
nil), anything else leaves the field as it is. -/
def submittedLinkRoot.Envelope.setData (e : submittedLinkRoot.Envelope) (v : Json) :
    submittedLinkRoot.Envelope :=
  match v with
  | .null => { e with Data := none }
  | .object members =>
      { e with Data := some (members.foldl Submitted.setMember (e.Data.getD ⟨"", "", ""⟩)) }
  | _ => e

/-- Decoding of one object member into the anonymous struct. -/
def submittedLinkRoot.Envelope.setMember (e : submittedLinkRoot.Envelope)
    (kv : String × Json) : submittedLinkRoot.Envelope :=
  if json.keyMatches "data" kv.1 then e.setData kv.2 else e

/-- Decoding of one object member into the root, by the tag `json`. -/
def submittedLinkRoot.setMember (root : submittedLinkRoot) (kv : String × Json) :
    submittedLinkRoot :=
  if json.keyMatches "json" kv.1 then
    match kv.2 with
    | .object members => { root with JSON := members.foldl Envelope.setMember root.JSON }
    | _ => root
  else root

/-- The root after `Do` decoded the document `body` into it (`json.Decoder.Decode`). -/
def submittedLinkRoot.decode (root : submittedLinkRoot) (body : Option Json) :
    submittedLinkRoot :=
  match body with
  | some (.object members) => members.foldl submittedLinkRoot.setMember root
  | _ => root

/-- The struct `SubmitSelfOptions`. -/
structure SubmitSelfOptions where
  Subreddit : String
  Title : String
  Text : String
  FlairID : String
  FlairText : String
  SendReplies : Option Bool
  NSFW : Bool
  Spoiler : Bool

/-- The struct `SubmitURLOptions`. -/
structure SubmitURLOptions where
  Subreddit : String
  Title : String
  URL : String
  FlairID : String
  FlairText : String
  SendReplies : Option Bool
  Resubmit : Bool
  NSFW : Bool
  Spoiler : Bool

/-- The fields of `SubmitSelfOptions` with their `url` tags, in declaration order. -/
def SubmitSelfOptions.fields (o : SubmitSelfOptions) : List query.Field :=
  [⟨"sr", true, .string o.Subreddit⟩,
   ⟨"title", true, .string o.Title⟩,
   ⟨"text", true, .string o.Text⟩,
   ⟨"flair_id", true, .string o.FlairID⟩,
   ⟨"flair_text", true, .string o.FlairText⟩,
   ⟨"sendreplies", true, .ptrBool o.SendReplies⟩,
   ⟨"nsfw", true, .bool o.NSFW⟩,
   ⟨"spoiler", true, .bool o.Spoiler⟩]

/-- The fields of `SubmitURLOptions` with their `url` tags, in declaration order. -/
def SubmitURLOptions.fields (o : SubmitURLOptions) : List query.Field :=
  [⟨"sr", true, .string o.Subreddit⟩,
   ⟨"title", true, .string o.Title⟩,
   ⟨"url", true, .string o.URL⟩,
   ⟨"flair_id", true, .string o.FlairID⟩,
   ⟨"flair_text", true, .string o.FlairText⟩,
   ⟨"sendreplies", true, .ptrBool o.SendReplies⟩,
   ⟨"resubmit", true, .bool o.Resubmit⟩,
   ⟨"nsfw", true, .bool o.NSFW⟩,
   ⟨"spoiler", true, .bool o.Spoiler⟩]

/-- The struct `PostServiceOp`. -/
structure PostServiceOp where
  client : Client

namespace PostServiceOp

/-- The method `submit`. -/
def submit (s : PostServiceOp) (v : query.Value) : RetV Submitted :=
  let path := "api/submit"
  match query.Values v with
  | .error err => ⟨none, none, some (.foreign err), []⟩
  | .ok form =>
    let form := form.Set "api_type" "json"
    let built := s.client.NewPostForm path form
    let calls := [Call.NewPostForm path form built]
    match built.err with
    | some err => ⟨none, none, some (.foreign err), calls⟩
    | none =>
      let root := submittedLinkRoot.new
      let out := s.client.Do built.req .submittedLinkRoot
      let root := root.decode out.body
      let calls := calls ++ [Call.Do built.req .submittedLinkRoot out]
      match out.err with
      | some err => ⟨none, out.resp, some (.foreign err), calls⟩
      | none => ⟨root.JSON.Data, out.resp, none, calls⟩

/-- The method `SubmitSelf`: the local struct embeds the options and adds `Kind`,
tagged `kind,omitempty`. -/
def SubmitSelf (s : PostServiceOp) (opts : SubmitSelfOptions) : RetV Submitted :=
  s.submit (.struct [⟨"kind", true, .string "self"⟩] [opts.fields])

/-- The method `SubmitURL`: the local struct embeds the options and adds `Kind`,
tagged `kind,omitempty`. -/
def SubmitURL (s : PostServiceOp) (opts : SubmitURLOptions) : RetV Submitted :=
  s.submit (.struct [⟨"kind", true, .string "link"⟩] [opts.fields])

/-- The method `EnableReplies`. -/
def EnableReplies (s : PostServiceOp) (id : String) : Ret :=
  let path := "api/sendreplies"
  let form := url.Values.empty
  let form := form.Set "id" id
  let form := form.Set "state" "true"
  let built := s.client.NewPostForm path form
  let calls := [Call.NewPostForm path form built]
  match built.err with
  | some err => ⟨none, some (.foreign err), calls⟩
  | none =>
    let out := s.client.Do built.req .nil
    ⟨out.resp, out.err.map .foreign, calls ++ [Call.Do built.req .nil out]⟩

/-- The method `DisableReplies`. -/
def DisableReplies (s : PostServiceOp) (id : String) : Ret :=
  let path := "api/sendreplies"
  let form := url.Values.empty
  let form := form.Set "id" id
  let form := form.Set "state" "false"
  let built := s.client.NewPostForm path form
  let calls := [Call.NewPostForm path form built]
  match built.err with
  | some err => ⟨none, some (.foreign err), calls⟩
  | none =>
    let out := s.client.Do built.req .nil
    ⟨out.resp, out.err.map .foreign, calls ++ [Call.Do built.req .nil out]⟩

/-- The method `MarkNSFW`. -/
def MarkNSFW (s : PostServiceOp) (id : String) : Ret :=
  let path := "api/marknsfw"
  let form := url.Values.empty
  let form := form.Set "id" id
  let built := s.client.NewPostForm path form
  let calls := [Call.NewPostForm path form built]
  match built.err with
  | some err => ⟨none, some (.foreign err), calls⟩
  | none =>
    let out := s.client.Do built.req .nil
    ⟨out.resp, out.err.map .foreign, calls ++ [Call.Do built.req .nil out]⟩

/-- The method `UnmarkNSFW`. -/
def UnmarkNSFW (s : PostServiceOp) (id : String) : Ret :=
  let path := "api/unmarknsfw"
  let form := url.Values.empty
  let form := form.Set "id" id
  let built := s.client.NewPostForm path form
  let calls := [Call.NewPostForm path form built]
  match built.err with
  | some err => ⟨none, some (.foreign err), calls⟩
  | none =>
    let out := s.client.Do built.req .nil
    ⟨out.resp, out.err.map .foreign, calls ++ [Call.Do built.req .nil out]⟩

/-- The method `Spoiler`. -/
def Spoiler (s : PostServiceOp) (id : String) : Ret :=
  let path := "api/spoiler"
  let form := url.Values.empty
  let form := form.Set "id" id
  let built := s.client.NewPostForm path form
  let calls := [Call.NewPostForm path form built]
  match built.err with
  | some err => ⟨none, some (.foreign err), calls⟩
  | none =>
    let out := s.client.Do built.req .nil
    ⟨out.resp, out.err.map .foreign, calls ++ [Call.Do built.req .nil out]⟩

/-- The method `Unspoiler`. -/
def Unspoiler (s : PostServiceOp) (id : String) : Ret :=
  let path := "api/unspoiler"
  let form := url.Values.empty
  let form := form.Set "id" id
  let built := s.client.NewPostForm path form
  let calls := [Call.NewPostForm path form built]
  match built.err with
  | some err => ⟨none, some (.foreign err), calls⟩
  | none =>
    let out := s.client.Do built.req .nil
    ⟨out.resp, out.err.map .foreign, calls ++ [Call.Do built.req .nil out]⟩

/-- The method `Hide`. -/
def Hide (s : PostServiceOp) (ids : List String) : Ret :=
  if ids.length = 0 then
    ⟨none, some (.errorsNew "must provide at least 1 id"), []⟩
  else
    let path := "api/hide"
    let form := url.Values.empty
    let form := form.Set "id" (strings.Join ids ",")
    let built := s.client.NewPostForm path form
    let calls := [Call.NewPostForm path form built]
    match built.err with
    | some err => ⟨none, some (.foreign err), calls⟩
    | none =>
      let out := s.client.Do built.req .nil
      ⟨out.resp, out.err.map .foreign, calls ++ [Call.Do built.req .nil out]⟩

/-- The method `Unhide`. -/
def Unhide (s : PostServiceOp) (ids : List String) : Ret :=
  if ids.length = 0 then
    ⟨none, some (.errorsNew "must provide at least 1 id"), []⟩
  else
    let path := "api/unhide"
    let form := url.Values.empty
    let form := form.Set "id" (strings.Join ids ",")
    let built := s.client.NewPostForm path form
    let calls := [Call.NewPostForm path form built]
    match built.err with
    | some err => ⟨none, some (.foreign err), calls⟩
    | none =>
      let out := s.client.Do built.req .nil
      ⟨out.resp, out.err.map .foreign, calls ++ [Call.Do built.req .nil out]⟩

end PostServiceOp

/-! ### listings.go -/

/-- Modelled from the spec: a Thing of a listing response (its type is declared
outside these source files), an entity with a `kind` discriminator and a data
record. -/
structure Thing where
  Kind : String
  Data : Json

/-- Modelled from the spec: the type `Comment` (declared outside these source
files), decoded from the data of a Thing of kind `t1`. -/
structure Comment where
  data : Json

/-- Modelled from the spec: the type `Link` (declared outside these source files),
decoded from the data of a Thing of kind `t3`. -/
structure Link where
  data : Json

/-- Modelled from the spec: the type `Subreddit` (declared outside these source
files), decoded from the data of a Thing of kind `t5`. -/
structure Subreddit where
  data : Json

/-- The struct `CommentsLinksSubreddits`. -/
structure CommentsLinksSubreddits where
  Comments : List Comment
  Links : List Link
  Subreddits : List Subreddit

/-- Modelled from the spec: the root `rootListing` that `Get` decodes into (declared
outside these source files), holding the comments, links and subreddits of the
response. -/
structure rootListing where
  Comments : List Comment
  Links : List Link
  Subreddits : List Subreddit

namespace rootListing

/-- Modelled from the spec: the zero value `new(rootListing)`, with nothing in it. -/
def new : rootListing := ⟨[], [], []⟩

/-- Modelled from the spec: one element of `children` read as a Thing, an object
with the members `kind` and `data`; an element without a string under `kind` has no kind. -/
def thingOf (child : Json) : Thing :=
  match child with
  | .object members =>
      ⟨match json.entry "kind" members with
        | some (.string k) => k
        | _ => "",
       (json.entry "data" members).getD .null⟩
  | _ => ⟨"", .null⟩

/-- Modelled from the spec: the Things of a listing response, the elements of
the array `children` of its member `data`, in the order of the array. -/
def things (body : Json) : List Thing :=
  match body with
  | .object members =>
      match json.field "data" members with
      | some (.object listing) =>
          match json.field "children" listing with
          | some (.array elems) => elems.map thingOf
          | _ => []
      | _ => []
  | _ => []

/-- Modelled from the spec: the decoding step for one Thing, which inspects the
kind and routes the Thing into the comment, link or subreddit bucket; a Thing of
any other kind is discarded. -/
def route (root : rootListing) (t : Thing) : rootListing :=
  if t.Kind = "t1" then { root with Comments := root.Comments ++ [⟨t.Data⟩] }
  else if t.Kind = "t3" then { root with Links := root.Links ++ [⟨t.Data⟩] }
  else if t.Kind = "t5" then { root with Subreddits := root.Subreddits ++ [⟨t.Data⟩] }
  else root

/-- Modelled from the spec: the root after `Do` decoded the document `body` into
it, one Thing after the other. -/
def decode (root : rootListing) (body : Option Json) : rootListing :=
  match body with
  | some doc => (things doc).foldl route root
  | none => root

/-- Modelled from the spec: the accessor `getComments`, whose result holds the
comments of the root. -/
def getComments (root : rootListing) : CommentsLinksSubreddits :=
  ⟨root.Comments, [], []⟩

/-- Modelled from the spec: the accessor `getLinks`, whose result holds the links
of the root. -/
def getLinks (root : rootListing) : CommentsLinksSubreddits :=
  ⟨[], root.Links, []⟩

/-- Modelled from the spec: the accessor `getSubreddits`, whose result holds the
subreddits of the root. -/
def getSubreddits (root : rootListing) : CommentsLinksSubreddits :=
  ⟨[], [], root.Subreddits⟩

end rootListing

/-- What the package function `addOptions` (declared outside these source files)
returns: the path with the query added, and an error. -/
structure WithOptions where
  path : String
  err : Option ForeignError

/-- The struct `ListingsServiceOp`, together with the package function `addOptions`
that its method calls, here applied to a path and the ids of the query struct. -/
structure ListingsServiceOp where
  client : Client
  addOptions : String → List String → WithOptions

namespace ListingsServiceOp

/-- The method `Get`. -/
def Get (s : ListingsServiceOp) (ids : List String) : RetV CommentsLinksSubreddits :=
  let path := "api/info"
  let added := s.addOptions path ids
  let path := added.path
  match added.err with
  | some err => ⟨none, none, some (.foreign err), []⟩
  | none =>
    let built := s.client.NewRequest "GET" path
    let calls := [Call.NewRequest "GET" path built]
    match built.err with
    | some err => ⟨none, none, some (.foreign err), calls⟩
    | none =>
      let root := rootListing.new
      let out := s.client.Do built.req .rootListing
      let root := root.decode out.body
      let calls := calls ++ [Call.Do built.req .rootListing out]
      match out.err with
      | some err => ⟨none, out.resp, some (.foreign err), calls⟩
      | none =>
        let v : CommentsLinksSubreddits :=
          ⟨root.getComments.Comments, root.getLinks.Links, root.getSubreddits.Subreddits⟩
        ⟨some v, out.resp, none, calls⟩

end ListingsServiceOp

end geddit

/-! ## The error discipline, as a property of a result and its trace -/

namespace query

/-- The error that `Values` returns for `v`, if any. -/
def errOf (v : Value) : Option ForeignError :=
  match Values v with
  | .error e => some e
  | .ok _ => none

end query

namespace geddit

/-- The error discipline of one call of an operation that returned `resp` and `err`
after the client calls `calls`, where `enc` is the error of the option encoding step
(none when there is no such step or it succeeded):
* the operation returns a foreign error exactly when the encoding step or one of its
  client calls returned that very error;
* `Do` is called at most once;
* a failure without a call of `Do` comes with a nil response. -/
structure ErrorDiscipline (enc : Option ForeignError) (resp : Option Response)
    (err : Option GoError) (calls : List Call) : Prop where
  surfaced : ∀ e, err = some (.foreign e) ↔ (enc = some e ∨ ∃ call ∈ calls, call.err = some e)
  noRetry : calls.countP Call.isDo ≤ 1
  beforeDo : err ≠ none → calls.countP Call.isDo = 0 → resp = none

/-- The error discipline of an operation that returns `(*Response, error)`. -/
def Ret.Disciplined (enc : Option ForeignError) (r : Ret) : Prop :=
  ErrorDiscipline enc r.resp r.err r.calls

/-- The error discipline of an operation that returns `(*T, *Response, error)`: in
addition, a failure comes with a nil result. -/
def RetV.Disciplined {α : Type} (enc : Option ForeignError) (r : RetV α) : Prop :=
  ErrorDiscipline enc r.resp r.err r.calls ∧ (r.err ≠ none → r.val = none)

/-- The common body of the operations that post a form and decode nothing: build the
request, return on an error, otherwise hand the request to `Do` and return what it
returns. -/
def postFormRun (c : Client) (path : String) (form : url.Values) : Ret :=
  let built := c.NewPostForm path form
  let calls := [Call.NewPostForm path form built]
  match built.err with
  | some err => ⟨none, some (.foreign err), calls⟩
  | none =>
    let out := c.Do built.req .nil
    ⟨out.resp, out.err.map .foreign, calls ++ [Call.Do built.req .nil out]⟩

end geddit

/-! ## Concrete clients and inputs -/

namespace geddit

/-- A client whose calls all succeed and whose transport answers with `body`. -/
def okClient (body : Option Json) : Client where
  NewPostForm := fun _ _ => ⟨some ⟨1⟩, none⟩
  NewRequest := fun _ _ => ⟨some ⟨2⟩, none⟩
  Do := fun _ _ => ⟨some ⟨200⟩, none, body⟩

/-- The options `SubmitSelfOptions` with `Subreddit`, `Title` and `Text` set and
every other field zero. -/
def selfOpts (sr title text : String) : SubmitSelfOptions :=
  ⟨sr, title, text, "", "", none, false, false⟩

/-- Options `SubmitURLOptions` for a link post that asks for no replies. -/
def urlOpts : SubmitURLOptions :=
  ⟨"test", "hi", "https://example.com/a b", "", "", some false, true, false, false⟩

/-- A listing response with two Things of kind `t3` and one of kind `t1`. -/
def listingDoc : Json :=
  .object [("kind", .string "Listing"), ("data", .object [("dist", .number "3"),
    ("children", .array [
      .object [("kind", .string "t3"), ("data", .object [("id", .string "a")])],
      .object [("kind", .string "t3"), ("data", .object [("id", .string "b")])],
      .object [("kind", .string "t1"), ("data", .object [("id", .string "c")])]])])]

/-- A listings service whose client calls succeed, whose transport answers with
`listingDoc` and whose `addOptions` adds the ids as the query `id`. -/
def listingService : ListingsServiceOp where
  client := okClient (some listingDoc)
  addOptions := fun path ids => ⟨path ++ "?id=" ++ strings.Join ids ",", none⟩

/-- The envelope of a response without `data` under `json`. -/
def emptyEnvelope : Json :=
  .object [("json", .object [])]

/-- The envelope of a successful submission with the members `id`, `name`, `url`. -/
def submittedEnvelope (i n u : String) : Json :=
  .object [("json", .object [("data",
    .object [("id", .string i), ("name", .string n), ("url", .string u)])])]

end geddit

/-! ## Lemmas on the library functions -/

theorem strings.joinRest_eq_go (sep : String) (rest : List String) (b : String) :
    strings.joinRest sep b rest = String.intercalate.go b sep rest := by
  induction rest generalizing b with
  | nil => rfl
  | cons x xs ih => simp [strings.joinRest, String.intercalate.go, ih]

theorem strings.Join_eq_intercalate (elems : List String) (sep : String) :
    strings.Join elems sep = sep.intercalate elems := by
  match elems with
  | [] => rfl
  | [e] => rfl
  | e :: x :: rest =>
    simp only [strings.Join, String.intercalate]
    exact strings.joinRest_eq_go sep (x :: rest) e

namespace url.Values

@[simp] theorem lookup_empty (k : String) : empty.lookup k = none := rfl

theorem lookup_assign (v : Values) (key : String) (vs : List String) (k : String) :
    (v.assign key vs).lookup k = if key = k then some vs else v.lookup k := by
  induction v with
  | nil =>
    simp only [assign, lookup]
  | cons hd tl ih =>
    obtain ⟨a, old⟩ := hd
    simp only [assign, lookup]
    by_cases h : a = key
    · subst h
      simp only [if_true, lookup]
      split <;> rfl
    · simp only [h, if_false, lookup, ih]
      by_cases h2 : a = k
      · subst h2
        simp [Ne.symm h]
      · simp [h2]

@[simp] theorem lookup_Set (v : Values) (key value k : String) :
    (v.Set key value).lookup k = if key = k then some [value] else v.lookup k :=
  lookup_assign v key [value] k

@[simp] theorem lookup_Add (v : Values) (key value k : String) :
    (v.Add key value).lookup k
      = if key = k then some ((v.lookup key).getD [] ++ [value]) else v.lookup k :=
  lookup_assign v key _ k

end url.Values

/-! ## Lemmas on the forms that the operations build -/

namespace query

theorem isEmptyValue_string (x : String) : isEmptyValue (.string x) = decide (x = "") := by
  have h : x.length = 0 ↔ x = "" := by
    constructor
    · intro hx
      exact String.ext (List.length_eq_zero.mp hx)
    · intro hx
      subst hx
      rfl
  unfold isEmptyValue
  by_cases hx : x = ""
  · subst hx
    rfl
  · have hl : x.length ≠ 0 := fun hl => hx (h.mp hl)
    simp [hx, hl]

theorem lookup_addField (v : url.Values) (f : Field) (k : String) :
    (addField v f).lookup k
      = if (f.omitempty && isEmptyValue f.value) = true then v.lookup k
        else if f.name = k then some ((v.lookup f.name).getD [] ++ [valueString f.value])
        else v.lookup k := by
  unfold addField
  split
  · rfl
  · exact url.Values.lookup_Add v f.name _ k

end query

namespace geddit

theorem posted_submit (s : PostServiceOp) (v : query.Value) :
    posted (s.submit v).calls
      = match query.Values v with
        | .error _ => []
        | .ok form => [("api/submit", form.Set "api_type" "json")] := by
  unfold PostServiceOp.submit
  cases query.Values v with
  | error e => rfl
  | ok form =>
    simp only
    split
    · rfl
    · split <;> rfl

theorem posted_SubmitSelf (s : PostServiceOp) (o : SubmitSelfOptions) :
    posted (s.SubmitSelf o).calls
      = [("api/submit",
          (query.reflectValue url.Values.empty [⟨"kind", true, .string "self"⟩]
            [o.fields]).Set "api_type" "json")] := by
  unfold PostServiceOp.SubmitSelf
  rw [posted_submit]
  rfl

theorem posted_SubmitURL (s : PostServiceOp) (o : SubmitURLOptions) :
    posted (s.SubmitURL o).calls
      = [("api/submit",
          (query.reflectValue url.Values.empty [⟨"kind", true, .string "link"⟩]
            [o.fields]).Set "api_type" "json")] := by
  unfold PostServiceOp.SubmitURL
  rw [posted_submit]
  rfl

theorem posted_EnableReplies (s : PostServiceOp) (id : String) :
    posted (s.EnableReplies id).calls
      = [("api/sendreplies", (url.Values.empty.Set "id" id).Set "state" "true")] := by
  unfold PostServiceOp.EnableReplies
  simp only
  split <;> rfl

theorem posted_DisableReplies (s : PostServiceOp) (id : String) :
    posted (s.DisableReplies id).calls
      = [("api/sendreplies", (url.Values.empty.Set "id" id).Set "state" "false")] := by
  unfold PostServiceOp.DisableReplies
  simp only
  split <;> rfl

theorem posted_MarkNSFW (s : PostServiceOp) (id : String) :
    posted (s.MarkNSFW id).calls = [("api/marknsfw", url.Values.empty.Set "id" id)] := by
  unfold PostServiceOp.MarkNSFW
  simp only
  split <;> rfl

theorem posted_UnmarkNSFW (s : PostServiceOp) (id : String) :
    posted (s.UnmarkNSFW id).calls = [("api/unmarknsfw", url.Values.empty.Set "id" id)] := by
  unfold PostServiceOp.UnmarkNSFW
  simp only
  split <;> rfl

theorem posted_Spoiler (s : PostServiceOp) (id : String) :
    posted (s.Spoiler id).calls = [("api/spoiler", url.Values.empty.Set "id" id)] := by
  unfold PostServiceOp.Spoiler
  simp only
  split <;> rfl

theorem posted_Unspoiler (s : PostServiceOp) (id : String) :
    posted (s.Unspoiler id).calls = [("api/unspoiler", url.Values.empty.Set "id" id)] := by
  unfold PostServiceOp.Unspoiler
  simp only
  split <;> rfl

theorem sameMap_id (id : String) :
    (url.Values.empty.Set "id" id).SameMap (url.Values.ofPairs [("id", id)]) := by
  intro k
  simp [url.Values.ofPairs, url.Values.lookup]

theorem sameMap_id_state (id state : String) :
    ((url.Values.empty.Set "id" id).Set "state" state).SameMap
      (url.Values.ofPairs [("id", id), ("state", state)]) := by
  intro k
  simp only [url.Values.lookup_Set, url.Values.lookup_empty, url.Values.ofPairs, List.map,
    url.Values.lookup]

end geddit

/-! ## Hide and Unhide -/

namespace geddit

/-- C1: `Hide` and `Unhide` return the precondition error "must provide at least 1
id" exactly when the list of ids is empty, and then the response is nil and no call
to the client (`NewPostForm`, `Do`) is made. -/
theorem Hide_Unhide_precondition (s : PostServiceOp) (ids : List String) :
    ((s.Hide ids).err = some (.errorsNew "must provide at least 1 id") ↔ ids = []) ∧
    ((s.Unhide ids).err = some (.errorsNew "must provide at least 1 id") ↔ ids = []) ∧
    (s.Hide []).resp = none ∧ (s.Hide []).calls = [] ∧
    (s.Unhide []).resp = none ∧ (s.Unhide []).calls = [] := by
  refine ⟨?_, ?_, rfl, rfl, rfl, rfl⟩
  · cases ids with
    | nil => simp [PostServiceOp.Hide]
    | cons a rest =>
      simp only [PostServiceOp.Hide, List.length_cons, Nat.succ_ne_zero, if_false]
      split
      · simp
      · cases (s.client.Do _ Target.nil).err <;> simp
  · cases ids with
    | nil => simp [PostServiceOp.Unhide]
    | cons a rest =>
      simp only [PostServiceOp.Unhide, List.length_cons, Nat.succ_ne_zero, if_false]
      split
      · simp
      · cases (s.client.Do _ Target.nil).err <;> simp

/-- C2: for a non-empty list of ids, `Hide` builds one request, to `api/hide`, and
`Unhide` one to `api/unhide`; the form has the single key `id` with the single value
that is the ids joined with "," in the given order, which for one id is that id. -/
theorem Hide_Unhide_form (s : PostServiceOp) (ids : List String) (h : ids ≠ []) :
    (∃ form, posted (s.Hide ids).calls = [("api/hide", form)] ∧ form.keys = ["id"] ∧
      form.lookup "id" = some [",".intercalate ids] ∧
      (∀ id, ids = [id] → form.lookup "id" = some [id])) ∧
    (∃ form, posted (s.Unhide ids).calls = [("api/unhide", form)] ∧ form.keys = ["id"] ∧
      form.lookup "id" = some [",".intercalate ids] ∧
      (∀ id, ids = [id] → form.lookup "id" = some [id])) := by
  have hlen : ¬ ids.length = 0 := by
    cases ids with
    | nil => exact absurd rfl h
    | cons a rest => simp
  constructor
  · refine ⟨url.Values.empty.Set "id" (strings.Join ids ","), ?_, rfl, ?_, ?_⟩
    · simp only [PostServiceOp.Hide, hlen, if_false]
      split <;> rfl
    · simp [strings.Join_eq_intercalate]
    · intro id hid
      subst hid
      rfl
  · refine ⟨url.Values.empty.Set "id" (strings.Join ids ","), ?_, rfl, ?_, ?_⟩
    · simp only [PostServiceOp.Unhide, hlen, if_false]
      split <;> rfl
    · simp [strings.Join_eq_intercalate]
    · intro id hid
      subst hid
      rfl

/-- Witness of C2 at the ids `t3_a`, `t3_b` and a client whose calls succeed. -/
theorem Hide_Unhide_form_witness :
    (∃ form, posted ((PostServiceOp.mk (okClient none)).Hide ["t3_a", "t3_b"]).calls
        = [("api/hide", form)] ∧ form.keys = ["id"] ∧
      form.lookup "id" = some [",".intercalate ["t3_a", "t3_b"]] ∧
      (∀ id, ["t3_a", "t3_b"] = [id] → form.lookup "id" = some [id])) ∧
    (∃ form, posted ((PostServiceOp.mk (okClient none)).Unhide ["t3_a", "t3_b"]).calls
        = [("api/unhide", form)] ∧ form.keys = ["id"] ∧
      form.lookup "id" = some [",".intercalate ["t3_a", "t3_b"]] ∧
      (∀ id, ["t3_a", "t3_b"] = [id] → form.lookup "id" = some [id])) :=
  Hide_Unhide_form (PostServiceOp.mk (okClient none)) ["t3_a", "t3_b"] (by simp)

end geddit

/-! ## The flag toggles -/

namespace geddit

/-- C6: every flag toggle builds one form request to its fixed endpoint with the
given id under `id`: `EnableReplies` and `DisableReplies` post the two fields `id`
and `state` (`true`, `false`) to `api/sendreplies`; `MarkNSFW`, `UnmarkNSFW`,
`Spoiler` and `Unspoiler` post `id` alone to their endpoints. `EnableReplies` of
`t1_abc` posts `id=t1_abc&state=true`, `MarkNSFW` of `t3_x` posts `id=t3_x`. -/
theorem toggle_forms (s : PostServiceOp) (id : String) :
    PostsForm (s.EnableReplies id).calls "api/sendreplies" [("id", id), ("state", "true")] ∧
    PostsForm (s.DisableReplies id).calls "api/sendreplies" [("id", id), ("state", "false")] ∧
    PostsForm (s.MarkNSFW id).calls "api/marknsfw" [("id", id)] ∧
    PostsForm (s.UnmarkNSFW id).calls "api/unmarknsfw" [("id", id)] ∧
    PostsForm (s.Spoiler id).calls "api/spoiler" [("id", id)] ∧
    PostsForm (s.Unspoiler id).calls "api/unspoiler" [("id", id)] ∧
    postedEncoded (s.EnableReplies "t1_abc").calls
      = [("api/sendreplies", "id=t1_abc&state=true")] ∧
    postedEncoded (s.MarkNSFW "t3_x").calls = [("api/marknsfw", "id=t3_x")] := by
  refine ⟨⟨_, posted_EnableReplies s id, sameMap_id_state id "true"⟩,
    ⟨_, posted_DisableReplies s id, sameMap_id_state id "false"⟩,
    ⟨_, posted_MarkNSFW s id, sameMap_id id⟩,
    ⟨_, posted_UnmarkNSFW s id, sameMap_id id⟩,
    ⟨_, posted_Spoiler s id, sameMap_id id⟩,
    ⟨_, posted_Unspoiler s id, sameMap_id id⟩, ?_, ?_⟩
  · unfold postedEncoded
    rw [posted_EnableReplies]
    decide
  · unfold postedEncoded
    rw [posted_MarkNSFW]
    decide

end geddit

/-! ## Submission forms -/

namespace geddit

/-- C7: whatever the options hold, the form that `SubmitSelf` posts to `api/submit`
has `kind` with the one value `self` and `api_type` with the one value `json`, and
the form that `SubmitURL` posts there has `kind` with the one value `link` and
`api_type` with the one value `json`. -/
theorem submit_kind_api_type (s : PostServiceOp) (so : SubmitSelfOptions)
    (uo : SubmitURLOptions) :
    (∃ form, posted (s.SubmitSelf so).calls = [("api/submit", form)] ∧
      form.lookup "kind" = some ["self"] ∧ form.lookup "api_type" = some ["json"]) ∧
    (∃ form, posted (s.SubmitURL uo).calls = [("api/submit", form)] ∧
      form.lookup "kind" = some ["link"] ∧ form.lookup "api_type" = some ["json"]) := by
  refine ⟨⟨_, posted_SubmitSelf s so, ?_, ?_⟩, ⟨_, posted_SubmitURL s uo, ?_, ?_⟩⟩
  · simp [query.reflectValue, SubmitSelfOptions.fields, query.lookup_addField,
      query.isEmptyValue_string, query.valueString]
  · simp
  · simp [query.reflectValue, SubmitURLOptions.fields, query.lookup_addField,
      query.isEmptyValue_string, query.valueString]
  · simp

end geddit

namespace geddit

/-- C10: in the form of `SubmitSelf` and of `SubmitURL` a string option has its key
exactly when it is not empty, `nsfw`, `spoiler` and `resubmit` have their key, with
the value `true`, exactly when the flag is true, and `sendreplies` is three-valued:
no key for a nil pointer, `false` for a pointer to false, `true` for a pointer to
true. -/
theorem submit_option_fields (s : PostServiceOp) (so : SubmitSelfOptions)
    (uo : SubmitURLOptions) :
    (∃ form, posted (s.SubmitSelf so).calls = [("api/submit", form)] ∧
      form.lookup "sr" = (if so.Subreddit = "" then none else some [so.Subreddit]) ∧
      form.lookup "title" = (if so.Title = "" then none else some [so.Title]) ∧
      form.lookup "text" = (if so.Text = "" then none else some [so.Text]) ∧
      form.lookup "flair_id" = (if so.FlairID = "" then none else some [so.FlairID]) ∧
      form.lookup "flair_text" = (if so.FlairText = "" then none else some [so.FlairText]) ∧
      form.lookup "sendreplies"
        = (match so.SendReplies with
           | none => none
           | some false => some ["false"]
           | some true => some ["true"]) ∧
      form.lookup "nsfw" = (if so.NSFW = true then some ["true"] else none) ∧
      form.lookup "spoiler" = (if so.Spoiler = true then some ["true"] else none)) ∧
    (∃ form, posted (s.SubmitURL uo).calls = [("api/submit", form)] ∧
      form.lookup "sr" = (if uo.Subreddit = "" then none else some [uo.Subreddit]) ∧
      form.lookup "title" = (if uo.Title = "" then none else some [uo.Title]) ∧
      form.lookup "url" = (if uo.URL = "" then none else some [uo.URL]) ∧
      form.lookup "flair_id" = (if uo.FlairID = "" then none else some [uo.FlairID]) ∧
      form.lookup "flair_text" = (if uo.FlairText = "" then none else some [uo.FlairText]) ∧
      form.lookup "sendreplies"
        = (match uo.SendReplies with
           | none => none
           | some false => some ["false"]
           | some true => some ["true"]) ∧
      form.lookup "resubmit" = (if uo.Resubmit = true then some ["true"] else none) ∧
      form.lookup "nsfw" = (if uo.NSFW = true then some ["true"] else none) ∧
      form.lookup "spoiler" = (if uo.Spoiler = true then some ["true"] else none)) := by
  refine ⟨⟨_, posted_SubmitSelf s so, ?_, ?_, ?_, ?_, ?_, ?_, ?_, ?_⟩,
    ⟨_, posted_SubmitURL s uo, ?_, ?_, ?_, ?_, ?_, ?_, ?_, ?_, ?_⟩⟩
  all_goals
    simp only [query.reflectValue, SubmitSelfOptions.fields, SubmitURLOptions.fields,
      List.foldl_cons, List.foldl_nil, url.Values.lookup_Set, query.lookup_addField,
      query.isEmptyValue_string, url.Values.lookup_empty]
    simp [query.valueString, query.isEmptyValue]
  all_goals
    first
    | (cases hs : so.SendReplies with
       | none => simp
       | some b => cases b <;> simp)
    | (cases hu : uo.SendReplies with
       | none => simp
       | some b => cases b <;> simp)
    | (split <;> simp_all)

end geddit

namespace geddit

/-- C3, as stated, fails: for the options with `Subreddit` "test", `Title` "hi" and
`Text` "body", the encoding of the form that `SubmitSelf` posts to `api/submit` is
not `sr=test&title=hi&text=body&kind=self&api_type=json`. -/
theorem SubmitSelf_example_encoding_counterexample :
    postedEncoded ((PostServiceOp.mk (okClient none)).SubmitSelf
        (selfOpts "test" "hi" "body")).calls
      ≠ [("api/submit", "sr=test&title=hi&text=body&kind=self&api_type=json")] := by
  decide

/-- C3, amended: for the options with `Subreddit` "test", `Title` "hi" and `Text`
"body", `SubmitSelf` posts to `api/submit` the form that holds exactly the five
pairs `sr=test`, `title=hi`, `text=body`, `kind=self`, `api_type=json`; its encoding
lists them sorted by key: `api_type=json&kind=self&sr=test&text=body&title=hi`. -/
theorem SubmitSelf_example_form (s : PostServiceOp) :
    PostsForm (s.SubmitSelf (selfOpts "test" "hi" "body")).calls "api/submit"
      [("sr", "test"), ("title", "hi"), ("text", "body"), ("kind", "self"),
        ("api_type", "json")] ∧
    postedEncoded (s.SubmitSelf (selfOpts "test" "hi" "body")).calls
      = [("api/submit", "api_type=json&kind=self&sr=test&text=body&title=hi")] := by
  constructor
  · refine ⟨_, posted_SubmitSelf s _, ?_⟩
    intro k
    simp only [query.reflectValue, SubmitSelfOptions.fields, selfOpts,
      List.foldl_cons, List.foldl_nil, url.Values.lookup_Set, query.lookup_addField,
      query.isEmptyValue_string, url.Values.lookup_empty, url.Values.ofPairs, List.map,
      url.Values.lookup]
    simp [query.valueString, query.isEmptyValue]
    by_cases h : "kind" = k
    · subst h
      simp
    · simp [h]
  · unfold postedEncoded
    rw [posted_SubmitSelf]
    decide

end geddit

/-! ## The result of a submission -/

namespace geddit

theorem decode_submittedEnvelope (i n u : String) :
    (submittedLinkRoot.new.decode (some (submittedEnvelope i n u))).JSON.Data
      = some ⟨i, n, u⟩ := by
  rfl

theorem decode_emptyEnvelope :
    (submittedLinkRoot.new.decode (some emptyEnvelope)).JSON.Data = none := by
  rfl

theorem submit_success (s : PostServiceOp) (v : query.Value) (form : url.Values)
    (hv : query.Values v = .ok form)
    (hcalls : ∀ call ∈ (s.submit v).calls, call.err = none) :
    (s.submit v).err = none ∧
    (s.submit v).val
      = (submittedLinkRoot.new.decode
          (s.client.Do (s.client.NewPostForm "api/submit" (form.Set "api_type" "json")).req
            .submittedLinkRoot).body).JSON.Data := by
  unfold PostServiceOp.submit at hcalls ⊢
  simp only [hv] at hcalls ⊢
  cases hb : (s.client.NewPostForm "api/submit" (form.Set "api_type" "json")).err with
  | some e =>
    simp only [hb] at hcalls
    have := hcalls _ (List.mem_singleton_self _)
    simp [Call.err, hb] at this
  | none =>
    simp only [hb] at hcalls ⊢
    cases hd : (s.client.Do (s.client.NewPostForm "api/submit"
        (form.Set "api_type" "json")).req .submittedLinkRoot).err with
    | some e =>
      simp only [hd] at hcalls
      have := hcalls _ (List.mem_append_right _ (List.mem_singleton_self _))
      simp [Call.err, hd] at this
    | none => simp

/-- C4: when every client call of a submission succeeds and the response envelope
decoded by `Do` has `id` i, `name` n and `url` u under `json.data`, `SubmitSelf` and
`SubmitURL` return the `Submitted` with `ID` i, `FullID` n and `URL` u, and a nil
error. -/
theorem submit_returns_Submitted (s : PostServiceOp) (so : SubmitSelfOptions)
    (uo : SubmitURLOptions) (i n u : String)
    (hself : ∀ call ∈ (s.SubmitSelf so).calls, call.err = none)
    (hurl : ∀ call ∈ (s.SubmitURL uo).calls, call.err = none)
    (hbody : ∀ req, (s.client.Do req .submittedLinkRoot).body
      = some (submittedEnvelope i n u)) :
    ((s.SubmitSelf so).val = some ⟨i, n, u⟩ ∧ (s.SubmitSelf so).err = none) ∧
    ((s.SubmitURL uo).val = some ⟨i, n, u⟩ ∧ (s.SubmitURL uo).err = none) := by
  constructor
  · have h := submit_success s
      (query.Value.struct [⟨"kind", true, .string "self"⟩] [so.fields]) _ rfl hself
    rw [hbody, decode_submittedEnvelope] at h
    exact ⟨h.2, h.1⟩
  · have h := submit_success s
      (query.Value.struct [⟨"kind", true, .string "link"⟩] [uo.fields]) _ rfl hurl
    rw [hbody, decode_submittedEnvelope] at h
    exact ⟨h.2, h.1⟩

/-- Witness of C4: the envelope with `id` x, `name` t3_x and `url` u gives the
`Submitted` with `ID` x, `FullID` t3_x and `URL` u. -/
theorem submit_returns_Submitted_witness :
    ((((PostServiceOp.mk (okClient (some (submittedEnvelope "x" "t3_x" "u")))).SubmitSelf
        (selfOpts "test" "hi" "body")).val = some ⟨"x", "t3_x", "u"⟩) ∧
      ((PostServiceOp.mk (okClient (some (submittedEnvelope "x" "t3_x" "u")))).SubmitSelf
        (selfOpts "test" "hi" "body")).err = none) ∧
    ((((PostServiceOp.mk (okClient (some (submittedEnvelope "x" "t3_x" "u")))).SubmitURL
        urlOpts).val = some ⟨"x", "t3_x", "u"⟩) ∧
      ((PostServiceOp.mk (okClient (some (submittedEnvelope "x" "t3_x" "u")))).SubmitURL
        urlOpts).err = none) :=
  submit_returns_Submitted (PostServiceOp.mk (okClient (some (submittedEnvelope "x" "t3_x" "u"))))
    (selfOpts "test" "hi" "body") urlOpts "x" "t3_x" "u"
    (by intro call hc; simp [PostServiceOp.SubmitSelf, PostServiceOp.submit, query.Values, okClient] at hc; rcases hc with rfl | rfl <;> rfl)
    (by intro call hc; simp [PostServiceOp.SubmitURL, PostServiceOp.submit, query.Values, okClient] at hc; rcases hc with rfl | rfl <;> rfl)
    (by intro req; rfl)

/-- C9: when every client call of a submission succeeds and the response envelope
decoded by `Do` has no `data` under `json`, `SubmitSelf` and `SubmitURL` return a nil
`Submitted` together with a nil error. -/
theorem submit_nil_without_data (s : PostServiceOp) (so : SubmitSelfOptions)
    (uo : SubmitURLOptions)
    (hself : ∀ call ∈ (s.SubmitSelf so).calls, call.err = none)
    (hurl : ∀ call ∈ (s.SubmitURL uo).calls, call.err = none)
    (hbody : ∀ req, (s.client.Do req .submittedLinkRoot).body = some emptyEnvelope) :
    ((s.SubmitSelf so).val = none ∧ (s.SubmitSelf so).err = none) ∧
    ((s.SubmitURL uo).val = none ∧ (s.SubmitURL uo).err = none) := by
  constructor
  · have h := submit_success s
      (query.Value.struct [⟨"kind", true, .string "self"⟩] [so.fields]) _ rfl hself
    rw [hbody, decode_emptyEnvelope] at h
    exact ⟨h.2, h.1⟩
  · have h := submit_success s
      (query.Value.struct [⟨"kind", true, .string "link"⟩] [uo.fields]) _ rfl hurl
    rw [hbody, decode_emptyEnvelope] at h
    exact ⟨h.2, h.1⟩

/-- Witness of C9 at a client whose calls succeed and whose transport answers with
the envelope that has an empty object under `json`. -/
theorem submit_nil_without_data_witness :
    ((((PostServiceOp.mk (okClient (some emptyEnvelope))).SubmitSelf
        (selfOpts "test" "hi" "body")).val = none) ∧
      ((PostServiceOp.mk (okClient (some emptyEnvelope))).SubmitSelf
        (selfOpts "test" "hi" "body")).err = none) ∧
    ((((PostServiceOp.mk (okClient (some emptyEnvelope))).SubmitURL urlOpts).val = none) ∧
      ((PostServiceOp.mk (okClient (some emptyEnvelope))).SubmitURL urlOpts).err = none) :=
  submit_nil_without_data (PostServiceOp.mk (okClient (some emptyEnvelope)))
    (selfOpts "test" "hi" "body") urlOpts
    (by intro call hc; simp [PostServiceOp.SubmitSelf, PostServiceOp.submit, query.Values, okClient] at hc; rcases hc with rfl | rfl <;> rfl)
    (by intro call hc; simp [PostServiceOp.SubmitURL, PostServiceOp.submit, query.Values, okClient] at hc; rcases hc with rfl | rfl <;> rfl)
    (by intro req; rfl)

end geddit

/-! ## The listing fetcher -/

namespace geddit

theorem rootListing.foldl_route (ts : List Thing) (root : rootListing) :
    (ts.foldl rootListing.route root).Comments
        = root.Comments ++ (ts.filter (fun t => t.Kind = "t1")).map (fun t => ⟨t.Data⟩) ∧
    (ts.foldl rootListing.route root).Links
        = root.Links ++ (ts.filter (fun t => t.Kind = "t3")).map (fun t => ⟨t.Data⟩) ∧
    (ts.foldl rootListing.route root).Subreddits
        = root.Subreddits ++ (ts.filter (fun t => t.Kind = "t5")).map (fun t => ⟨t.Data⟩) := by
  induction ts generalizing root with
  | nil => simp
  | cons t rest ih =>
    simp only [List.foldl_cons]
    obtain ⟨h1, h2, h3⟩ := ih (root.route t)
    rw [h1, h2, h3]
    unfold rootListing.route
    by_cases k1 : t.Kind = "t1"
    · simp [k1, List.filter_cons]
    · by_cases k3 : t.Kind = "t3"
      · simp [k3, List.filter_cons]
      · by_cases k5 : t.Kind = "t5"
        · simp [k5, List.filter_cons]
        · simp [k1, k3, k5, List.filter_cons]

theorem kinds_partition (ts : List Thing) :
    (ts.filter (fun t => t.Kind = "t1")).length + (ts.filter (fun t => t.Kind = "t3")).length
      + (ts.filter (fun t => t.Kind = "t5")).length
      + (ts.filter (fun t => t.Kind ≠ "t1" ∧ t.Kind ≠ "t3" ∧ t.Kind ≠ "t5")).length
      = ts.length := by
  induction ts with
  | nil => rfl
  | cons t rest ih =>
    simp only [List.filter_cons]
    split_ifs <;> simp_all <;> omega

theorem Get_success (s : ListingsServiceOp) (ids : List String)
    (hadd : (s.addOptions "api/info" ids).err = none)
    (hcalls : ∀ call ∈ (s.Get ids).calls, call.err = none) :
    (s.Get ids).err = none ∧
    (s.Get ids).val
      = some ⟨(rootListing.new.decode (s.client.Do (s.client.NewRequest "GET"
            (s.addOptions "api/info" ids).path).req .rootListing).body).Comments,
          (rootListing.new.decode (s.client.Do (s.client.NewRequest "GET"
            (s.addOptions "api/info" ids).path).req .rootListing).body).Links,
          (rootListing.new.decode (s.client.Do (s.client.NewRequest "GET"
            (s.addOptions "api/info" ids).path).req .rootListing).body).Subreddits⟩ := by
  unfold ListingsServiceOp.Get at hcalls ⊢
  simp only [hadd] at hcalls ⊢
  cases hb : (s.client.NewRequest "GET" (s.addOptions "api/info" ids).path).err with
  | some e =>
    simp only [hb] at hcalls
    have := hcalls _ (List.mem_singleton_self _)
    simp [Call.err, hb] at this
  | none =>
    simp only [hb] at hcalls ⊢
    cases hd : (s.client.Do (s.client.NewRequest "GET"
        (s.addOptions "api/info" ids).path).req .rootListing).err with
    | some e =>
      simp only [hd] at hcalls
      have := hcalls _ (List.mem_append_right _ (List.mem_singleton_self _))
      simp [Call.err, hd] at this
    | none => simp [rootListing.getComments, rootListing.getLinks, rootListing.getSubreddits]

/-- C5: when `Get` succeeds on a listing response, the comments of its result are
the Things of kind `t1`, the links those of kind `t3` and the subreddits those of
kind `t5`, each in the order of the response array; every Thing is in exactly one of
the three sequences, or in none when its kind is another one; and a response with
two `t3` Things and one `t1` Thing gives two links, one comment and no subreddit. -/
theorem Get_partitions (s : ListingsServiceOp) (ids : List String) (doc : Json)
    (hadd : (s.addOptions "api/info" ids).err = none)
    (hcalls : ∀ call ∈ (s.Get ids).calls, call.err = none)
    (hbody : ∀ req, (s.client.Do req .rootListing).body = some doc) :
    ∃ v, (s.Get ids).val = some v ∧
      v.Comments.map Comment.data
        = ((rootListing.things doc).filter (fun t => t.Kind = "t1")).map Thing.Data ∧
      v.Links.map Link.data
        = ((rootListing.things doc).filter (fun t => t.Kind = "t3")).map Thing.Data ∧
      v.Subreddits.map Subreddit.data
        = ((rootListing.things doc).filter (fun t => t.Kind = "t5")).map Thing.Data ∧
      v.Comments.length + v.Links.length + v.Subreddits.length
          + ((rootListing.things doc).filter
              (fun t => t.Kind ≠ "t1" ∧ t.Kind ≠ "t3" ∧ t.Kind ≠ "t5")).length
        = (rootListing.things doc).length ∧
      (((rootListing.things doc).map Thing.Kind).Perm ["t3", "t3", "t1"] →
        v.Links.length = 2 ∧ v.Comments.length = 1 ∧ v.Subreddits.length = 0) := by
  obtain ⟨_, hval⟩ := Get_success s ids hadd hcalls
  rw [hbody] at hval
  obtain ⟨hc, hl, hs⟩ := rootListing.foldl_route (rootListing.things doc) rootListing.new
  simp only [rootListing.new, List.nil_append] at hc hl hs
  simp only [rootListing.decode, rootListing.new] at hval
  rw [hc, hl, hs] at hval
  refine ⟨_, hval, ?_, ?_, ?_, ?_, ?_⟩
  · simp [Function.comp_def]
  · simp [Function.comp_def]
  · simp [Function.comp_def]
  · simp only [List.length_map]
    exact kinds_partition _
  · intro hperm
    simp only [List.length_map]
    have count : ∀ k : String, ((rootListing.things doc).filter (fun t => t.Kind = k)).length
        = (["t3", "t3", "t1"] : List String).count k := by
      intro k
      rw [← hperm.count_eq, List.count, List.countP_map, List.countP_eq_length_filter]
      congr 1
    rw [count "t3", count "t1", count "t5"]
    decide

/-- Witness of C5: on the response with the Things `t3`, `t3`, `t1`, in this order,
`Get` returns two links, one comment and no subreddit. -/
theorem Get_partitions_witness :
    ∃ v, (listingService.Get ["t3_a", "t3_b", "t1_c"]).val = some v ∧
      v.Links.length = 2 ∧ v.Comments.length = 1 ∧ v.Subreddits.length = 0 := by
  obtain ⟨v, hv, _, _, _, _, hex⟩ :=
    Get_partitions listingService ["t3_a", "t3_b", "t1_c"] listingDoc rfl
      (by
        intro call hc
        simp [ListingsServiceOp.Get, listingService, okClient] at hc
        rcases hc with rfl | rfl <;> rfl)
      (by intro req; rfl)
  exact ⟨v, hv, hex (List.Perm.refl _)⟩

end geddit

/-! ## The error discipline -/

namespace geddit

theorem postFormRun_disciplined (c : Client) (path : String) (form : url.Values) :
    (postFormRun c path form).Disciplined none := by
  unfold Ret.Disciplined postFormRun
  cases hb : (c.NewPostForm path form).err with
  | some e0 =>
    simp only [hb]
    exact ⟨by intro e; simp [Call.err, hb], by simp [Call.isDo], by intro _ _; rfl⟩
  | none =>
    simp only [hb]
    refine ⟨?_, by simp [Call.isDo], ?_⟩
    · intro e
      cases hd : (c.Do (c.NewPostForm path form).req .nil).err <;>
        simp [Call.err, hb, hd]
    · intro _ h0
      simp [Call.isDo] at h0

theorem precondition_disciplined (c : Client) (ids : List String) (path : String)
    (form : url.Values) :
    (if ids.length = 0 then
        (⟨none, some (.errorsNew "must provide at least 1 id"), []⟩ : Ret)
      else postFormRun c path form).Disciplined none := by
  split
  · exact ⟨by intro e; simp, by simp, by intro _ _; rfl⟩
  · exact postFormRun_disciplined c path form

theorem submit_disciplined (s : PostServiceOp) (v : query.Value) :
    (s.submit v).Disciplined (query.errOf v) := by
  unfold RetV.Disciplined PostServiceOp.submit query.errOf
  cases hv : query.Values v with
  | error e0 =>
    refine ⟨⟨?_, ?_, ?_⟩, ?_⟩ <;> simp
  | ok form =>
    simp only
    cases hb : (s.client.NewPostForm "api/submit" (form.Set "api_type" "json")).err with
    | some e0 =>
      refine ⟨⟨?_, ?_, ?_⟩, ?_⟩ <;> simp [Call.err, Call.isDo, hb]
    | none =>
      simp only
      cases hd : (s.client.Do (s.client.NewPostForm "api/submit"
          (form.Set "api_type" "json")).req .submittedLinkRoot).err with
      | some e1 =>
        refine ⟨⟨?_, ?_, ?_⟩, ?_⟩ <;> simp [Call.err, Call.isDo, hb, hd]
      | none =>
        refine ⟨⟨?_, ?_, ?_⟩, ?_⟩ <;> simp [Call.err, Call.isDo, hb, hd]

theorem Get_disciplined (s : ListingsServiceOp) (ids : List String) :
    (s.Get ids).Disciplined (s.addOptions "api/info" ids).err := by
  unfold RetV.Disciplined ListingsServiceOp.Get
  cases ha : (s.addOptions "api/info" ids).err with
  | some e0 =>
    refine ⟨⟨?_, ?_, ?_⟩, ?_⟩ <;> simp [ha]
  | none =>
    simp only [ha]
    cases hb : (s.client.NewRequest "GET" (s.addOptions "api/info" ids).path).err with
    | some e0 =>
      refine ⟨⟨?_, ?_, ?_⟩, ?_⟩ <;> simp [Call.err, Call.isDo, hb]
    | none =>
      simp only
      cases hd : (s.client.Do (s.client.NewRequest "GET"
          (s.addOptions "api/info" ids).path).req .rootListing).err with
      | some e1 =>
        refine ⟨⟨?_, ?_, ?_⟩, ?_⟩ <;> simp [Call.err, Call.isDo, hb, hd]
      | none =>
        refine ⟨⟨?_, ?_, ?_⟩, ?_⟩ <;> simp [Call.err, Call.isDo, hb, hd]

/-- C8: in every operation of the post manager and in `Get`, the operation returns a
foreign error exactly when the option encoding or one of its client calls
(`NewPostForm`, `NewRequest`, `Do`) returned that very error, `Do` is called at most
once, a failure without a call of `Do` comes with a nil response, and a failure of
`submit`, `SubmitSelf`, `SubmitURL` or `Get` comes with a nil result. -/
theorem errors_surface_unmodified (p : PostServiceOp) (l : ListingsServiceOp)
    (v : query.Value) (so : SubmitSelfOptions) (uo : SubmitURLOptions) (id : String)
    (ids : List String) :
    (p.submit v).Disciplined (query.errOf v) ∧
    (p.SubmitSelf so).Disciplined none ∧
    (p.SubmitURL uo).Disciplined none ∧
    (l.Get ids).Disciplined (l.addOptions "api/info" ids).err ∧
    (p.EnableReplies id).Disciplined none ∧
    (p.DisableReplies id).Disciplined none ∧
    (p.MarkNSFW id).Disciplined none ∧
    (p.UnmarkNSFW id).Disciplined none ∧
    (p.Spoiler id).Disciplined none ∧
    (p.Unspoiler id).Disciplined none ∧
    (p.Hide ids).Disciplined none ∧
    (p.Unhide ids).Disciplined none :=
  ⟨submit_disciplined p v,
    submit_disciplined p (.struct [⟨"kind", true, .string "self"⟩] [so.fields]),
    submit_disciplined p (.struct [⟨"kind", true, .string "link"⟩] [uo.fields]),
    Get_disciplined l ids,
    postFormRun_disciplined p.client _ _,
    postFormRun_disciplined p.client _ _,
    postFormRun_disciplined p.client _ _,
    postFormRun_disciplined p.client _ _,
    postFormRun_disciplined p.client _ _,
    postFormRun_disciplined p.client _ _,
    precondition_disciplined p.client ids _ _,
    precondition_disciplined p.client ids _ _⟩

end geddit
